import Mathlib

/-!
Verification of the plugin-communication protocol layer
(`operator-plugin-framework`): a shallow embedding of the host-side
admission controller (`server.StreamManager`), the host-side RPC
correlation layer (`stream.StreamManager`), the plugin-side dispatcher
(`stream.PluginStreamClient`), and the generic stream adapter
(`stream.BidiStreamAdapter`), together with proofs about them.

Bytes are modelled as `List Nat`; Go maps keyed by strings are modelled
as association lists with overwrite-on-insert semantics (so the length
of the list equals the number of keys, matching Go's `len` on a map).
-/

namespace OPF

/-- Byte strings (`[]byte` in the source). -/
def Payload : Type := List Nat

deriving instance DecidableEq, Repr for Payload

/-- The wire-level envelope `pluginframeworkv1.PluginStreamMessage`:
a tagged union carrying exactly one of registration, RPC call,
RPC response, or error (spec section 6; the generated protobuf type is
not under `src/`, its shape is taken from the spec's schema, which the
code in `src/stream` consumes via `GetRegister`/`GetRpcCall`/
`GetRpcResponse`/`GetError`). -/
inductive Envelope where
  | register (name version : String)
  | rpcCall (requestId method : String) (payload : Payload)
  | rpcResponse (requestId : String) (payload : Payload)
  | error (code message : String)
deriving DecidableEq, Repr

/-- Association-list lookup, first binding wins (Go map read). -/
def assocLookup {α : Type} : List (String × α) → String → Option α
  | [], _ => none
  | (k1, v) :: rest, k => if k1 = k then some v else assocLookup rest k

/-- Association-list insert with overwrite (Go map write `m[k] = v`):
if the key is present its value is replaced, otherwise a new binding is
added, so key multiplicity is at most one and list length counts keys. -/
def assocInsert {α : Type} : List (String × α) → String → α → List (String × α)
  | [], k, v => [(k, v)]
  | (k1, v1) :: rest, k, v =>
      if k1 = k then (k, v) :: rest else (k1, v1) :: assocInsert rest k v

/-- Association-list removal (Go map `delete(m, k)`). -/
def assocErase {α : Type} : List (String × α) → String → List (String × α)
  | [], _ => []
  | (k1, v1) :: rest, k =>
      if k1 = k then assocErase rest k else (k1, v1) :: assocErase rest k

/-! ### Spec-modelled envelope serialization

`proto.Marshal` / `proto.Unmarshal` on `PluginStreamMessage` live in the
generated protobuf package, which is not under `src/`.  The spec's
round-trip law (section 8) is the contract they must satisfy, so they
are modelled here by an explicit injective byte encoding of the
tagged union of section 6. -/

/-- Modelled from the spec: length-prefixed encoding of a raw byte field
of the envelope (the generated protobuf encoder is not under `src/`). -/
def encodeBytes (b : List Nat) : List Nat := b.length :: b

/-- Modelled from the spec: encoding of a string field of the envelope
as the length-prefixed list of its character codes. -/
def encodeStr (s : String) : List Nat := encodeBytes (s.data.map Char.toNat)

/-- Modelled from the spec: decoder matching `encodeBytes`, returning
the decoded field and the remaining bytes. -/
def decodeBytes : List Nat → Option (List Nat × List Nat)
  | [] => none
  | n :: rest =>
      if n ≤ rest.length then some (rest.take n, rest.drop n) else none

/-- Modelled from the spec: decoder matching `encodeStr`. -/
def decodeStr (l : List Nat) : Option (String × List Nat) :=
  match decodeBytes l with
  | none => none
  | some (b, rest) => some (String.mk (b.map Char.ofNat), rest)

/-- Modelled from the spec: `proto.Marshal` on the envelope — a tag byte
followed by the case's fields (section 6 schema). -/
def marshalEnvelope : Envelope → List Nat
  | .register name version => 0 :: (encodeStr name ++ encodeStr version)
  | .rpcCall requestId method payload =>
      1 :: (encodeStr requestId ++ (encodeStr method ++ encodeBytes payload))
  | .rpcResponse requestId payload =>
      2 :: (encodeStr requestId ++ encodeBytes payload)
  | .error code message => 3 :: (encodeStr code ++ encodeStr message)

/-- Modelled from the spec: `proto.Unmarshal` on the envelope; fails
(returns `none`, the decode error) on bytes that are not a valid
envelope. -/
def unmarshalEnvelope (bytes : List Nat) : Option Envelope :=
  match bytes with
  | 0 :: rest =>
      match decodeStr rest with
      | none => none
      | some (name, r1) =>
          match decodeStr r1 with
          | none => none
          | some (version, r2) =>
              if r2.isEmpty then some (.register name version) else none
  | 1 :: rest =>
      match decodeStr rest with
      | none => none
      | some (requestId, r1) =>
          match decodeStr r1 with
          | none => none
          | some (method, r2) =>
              match decodeBytes r2 with
              | none => none
              | some (payload, r3) =>
                  if r3.isEmpty then some (.rpcCall requestId method payload)
                  else none
  | 2 :: rest =>
      match decodeStr rest with
      | none => none
      | some (requestId, r1) =>
          match decodeBytes r1 with
          | none => none
          | some (payload, r2) =>
              if r2.isEmpty then some (.rpcResponse requestId payload) else none
  | 3 :: rest =>
      match decodeStr rest with
      | none => none
      | some (code, r1) =>
          match decodeStr r1 with
          | none => none
          | some (message, r2) =>
              if r2.isEmpty then some (.error code message) else none
  | _ => none

/-- `BidiStreamAdapter.Send` (src/stream/adapter.go lines 77-88):
marshal the framework envelope, wrap the bytes into the domain-specific
carrier, and hand the carrier to the underlying transport. -/
def adapterSend {C : Type} (wrapMessage : List Nat → C) (msg : Envelope) : C :=
  wrapMessage (marshalEnvelope msg)

/-- `BidiStreamAdapter.Recv` (src/stream/adapter.go lines 90-107):
unwrap the carrier received from the underlying transport and
unmarshal the bytes back into a framework envelope (`none` is the
unmarshal failure path). -/
def adapterRecv {C : Type} (unwrapMessage : C → List Nat) (carrier : C) :
    Option Envelope :=
  unmarshalEnvelope (unwrapMessage carrier)

/-! ### Host-side admission controller (`server.StreamManager`)

`activeStreams` is a Go map keyed by plugin name; the claims only
inspect its key set, so it is modelled as a duplicate-free list of
names (`mapInsert` is the keyed write, `mapRemove` the delete, length
is Go's `len`). -/

/-- Write of `sm.activeStreams[pluginName] = ms`: the key set gains the
name unless it is already present (overwrite keeps the key set). -/
def mapInsert (table : List String) (name : String) : List String :=
  if name ∈ table then table else name :: table

/-- `delete(sm.activeStreams, pluginName)` inside
`unregisterPlugin` (src/stream/plugin_helpers.go lines 216-228). -/
def mapRemove (table : List String) (name : String) : List String :=
  table.filter (fun k => k ≠ name)

/-- Outcome of the `OnPluginConnect` attach callback, an external
collaborator: `ok`, or `fail msg` when the handler returns an error. -/
inductive ConnectOutcome where
  | ok
  | fail (msg : String)
deriving DecidableEq, Repr

/-- The error value `HandlePluginStream` returns on each of its three
return paths: `ErrMaxConnectionsReached` (line 179), the attach
callback's error (line 202), or `ctx.Err()` after the lifetime signal
fires (line 212). -/
inductive HandleErr where
  | maxConnectionsReached
  | connectFailed (msg : String)
  | ctxCancelled
deriving DecidableEq, Repr

/-- Observable events of one `HandlePluginStream` run, in program
order: registry insertion, attach callback, blocking on `ctx.Done()`,
registry removal, detach callback. -/
inductive HEvent where
  | registered (name : String)
  | onConnect (name : String)
  | waitedCtxDone
  | unregistered (name : String)
  | onDisconnect (name : String)
deriving DecidableEq, Repr

/-- `StreamManager.HandlePluginStream` (src/stream/plugin_helpers.go
lines 171-213), one sequential run against table `table` with bound
`maxConn`: capacity check (`len(activeStreams) >= maxConnections` →
return `ErrMaxConnectionsReached`, lines 175-181); otherwise insert the
name (lines 192-194), call `OnPluginConnect` — on error, unregister and
return that error without blocking and without `OnPluginDisconnect`
(lines 199-203); otherwise block on `ctx.Done()`, unregister, call
`OnPluginDisconnect`, and return `ctx.Err()` (lines 206-212).
Result: (returned error, final table, event trace). -/
def handlePluginStream (table : List String) (maxConn : Nat) (name : String)
    (connect : ConnectOutcome) : HandleErr × List String × List HEvent :=
  if maxConn ≤ table.length then
    (.maxConnectionsReached, table, [])
  else
    let registeredTable := mapInsert table name
    match connect with
    | .fail msg =>
        (.connectFailed msg, mapRemove registeredTable name,
         [.registered name, .onConnect name, .unregistered name])
    | .ok =>
        (.ctxCancelled, mapRemove registeredTable name,
         [.registered name, .onConnect name, .waitedCtxDone,
          .unregistered name, .onDisconnect name])

/-! ### Interleaving model of concurrent `HandlePluginStream` admission

The capacity check (lines 175-181) and the insertion (lines 192-194)
are two separate `sm.mu`-delimited critical sections, so each is one
atomic step of this transition system; between them another attach
attempt may run either of its own steps. -/

/-- Program counter of one attach attempt through the admission part of
`HandlePluginStream`: before the locked capacity check, between check
and locked insert, after insert, or rejected. -/
inductive HPhase where
  | checking
  | inserting
  | registered
  | rejected
deriving DecidableEq, Repr

/-- State of the admission system: the configured bound, the
`activeStreams` key set, and the concurrent attach attempts with their
program counters. -/
structure AdmissionSys where
  maxConn : Nat
  table : List String
  threads : List (String × HPhase)
deriving DecidableEq, Repr

/-- One atomic (lock-delimited) step of some attach attempt:
`checkReject`/`checkPass` is the critical section of lines 175-181,
`insertStep` the critical section of lines 192-194. -/
inductive AdmStep : AdmissionSys → AdmissionSys → Prop where
  | checkReject (s : AdmissionSys) (i : Nat) (n : String)
      (hget : s.threads[i]? = some (n, HPhase.checking))
      (hfull : s.maxConn ≤ s.table.length) :
      AdmStep s ⟨s.maxConn, s.table, s.threads.set i (n, HPhase.rejected)⟩
  | checkPass (s : AdmissionSys) (i : Nat) (n : String)
      (hget : s.threads[i]? = some (n, HPhase.checking))
      (hroom : s.table.length < s.maxConn) :
      AdmStep s ⟨s.maxConn, s.table, s.threads.set i (n, HPhase.inserting)⟩
  | insertStep (s : AdmissionSys) (i : Nat) (n : String)
      (hget : s.threads[i]? = some (n, HPhase.inserting)) :
      AdmStep s ⟨s.maxConn, mapInsert s.table n, s.threads.set i (n, HPhase.registered)⟩

/-- Initial state for the over-admission scenario: bound 1, empty
table, two attach attempts "a" and "b" both before their capacity
check. -/
def admInit : AdmissionSys := ⟨1, [], [("a", .checking), ("b", .checking)]⟩

/-- The over-admitted state reached by check(a); check(b); insert(a);
insert(b): both names in the table although the bound is 1. -/
def admBad : AdmissionSys := ⟨1, ["b", "a"], [("a", .registered), ("b", .registered)]⟩

/-! ### Host-side RPC correlation layer (`stream.StreamManager`)

`pendingCalls` maps a request ID to a buffered channel of capacity 1;
a channel is modelled by its buffer content: `none` = empty,
`some p` = holding payload `p`. -/

/-- The pending-call table `sm.pendingCalls`. -/
def PendingMap : Type := List (String × Option Payload)

deriving instance DecidableEq, Repr for PendingMap

/-- `generateRequestID` (src/stream/manager.go lines 214-217):
`fmt.Sprintf("%d", time.Now().UnixNano())` — the decimal string of the
nanosecond clock reading, taken here as the parameter. -/
def generateRequestID (nowUnixNano : Nat) : String := toString nowUnixNano

/-- `StreamManager.handleResponse` (src/stream/manager.go lines
186-206): look up the response's request ID; if absent return the
error `"no pending call for request ID: <id>"` (line 194); otherwise
perform the non-blocking channel send of the payload (lines 198-203):
fill the buffer if empty, silently drop if full. -/
def handleResponse (pending : PendingMap) (requestId : String)
    (payload : Payload) : Except String PendingMap :=
  match assocLookup pending requestId with
  | none => .error ("no pending call for request ID: " ++ requestId)
  | some none => .ok (assocInsert pending requestId (some payload))
  | some (some _) => .ok pending

/-- `StreamManager.handleError` (src/stream/manager.go lines 209-212):
the body is empty apart from a comment — the error message is only
logged, nothing is looked up or mutated. -/
def handleError (pending : PendingMap) (_code _message : String) : PendingMap :=
  pending

/-- One iteration of `StreamManager.ListenForMessages`
(src/stream/manager.go lines 130-157) on a received envelope:
an `RpcResponse` goes to `handleResponse`, whose error makes the loop
return `"failed to handle RPC response: <err>"` (lines 144-149); an
`Error` goes to `handleError` and the loop continues (lines 151-155);
any other envelope is ignored and the loop continues. `.ok` is the
continuing loop carrying the pending table, `.error` is the loop's
return. -/
def listenStep (pending : PendingMap) (msg : Envelope) : Except String PendingMap :=
  match msg with
  | .rpcResponse requestId payload =>
      match handleResponse pending requestId payload with
      | .error e => .error ("failed to handle RPC response: " ++ e)
      | .ok pending1 => .ok pending1
  | .error code message => .ok (handleError pending code message)
  | .register _ _ => .ok pending
  | .rpcCall _ _ _ => .ok pending

/-- How the `select` in `waitForResponse` (src/stream/manager.go lines
174-182) resolves: a payload arrives on the response channel, or the
governing context is cancelled / times out first (`ctx.Done()`). -/
inductive WaitOutcome where
  | response (payload : Payload)
  | ctxDone (errMsg : String)
deriving DecidableEq, Repr

/-- Error result of `waitForResponse`: `ctx.Err()` on the cancellation
branch (line 181). -/
inductive CallErr where
  | ctxErr (msg : String)
deriving DecidableEq, Repr

/-- `StreamManager.waitForResponse` (src/stream/manager.go lines
160-183) as a state transformer: register the fresh empty channel
under the request ID (lines 162-166), resolve the `select` (lines
174-182), and — the deferred delete, lines 168-172, which runs on both
paths before returning — remove the entry.  Result: (call result,
pending table at return). -/
def waitForResponse (pending : PendingMap) (requestId : String)
    (outcome : WaitOutcome) : Except CallErr Payload × PendingMap :=
  let registered := assocInsert pending requestId none
  let afterDelete := assocErase registered requestId
  match outcome with
  | .response p => (.ok p, afterDelete)
  | .ctxDone e => (.error (.ctxErr e), afterDelete)

/-- The side effects of `CallRPC` / `waitForResponse` in program
order. -/
inductive CallAction where
  | marshalReq
  | genId (requestId : String)
  | sendEnvelope (msg : Envelope)
  | registerPending (requestId : String)
  | waitSelect (requestId : String)
  | deletePending (requestId : String)
deriving DecidableEq, Repr

/-- Effect order of `StreamManager.waitForResponse` (src/stream/
manager.go lines 160-183): register the pending entry (lines 162-166),
block on the `select` (lines 174-182), then the deferred delete (lines
168-172). -/
def waitForResponseActs (requestId : String) : List CallAction :=
  [.registerPending requestId, .waitSelect requestId, .deletePending requestId]

/-- Effect order of `StreamManager.CallRPC` (src/stream/manager.go
lines 88-125): marshal the request (line 90), generate the request ID
(line 96), send the `RpcCall` envelope (line 109), then call
`waitForResponse` (line 114) — which is what registers the pending
entry. -/
def callRPCActs (requestId method : String) (payload : Payload) : List CallAction :=
  [.marshalReq, .genId requestId,
   .sendEnvelope (.rpcCall requestId method payload)]
    ++ waitForResponseActs requestId

/-- `true` when some action satisfying `p` occurs strictly before some
action satisfying `q` in the trace. -/
def occursBefore (p q : CallAction → Bool) : List CallAction → Bool
  | [] => false
  | a :: rest => (p a && rest.any q) || occursBefore p q rest

/-- Recognizes the `Send` of the `RpcCall` envelope. -/
def isSendAct : CallAction → Bool
  | .sendEnvelope _ => true
  | _ => false

/-- Recognizes the registration of the `PendingCall` entry. -/
def isRegisterAct : CallAction → Bool
  | .registerPending _ => true
  | _ => false

/-! ### Plugin-side dispatcher (`stream.PluginStreamClient`) -/

/-- Go's `path.Base`: strip trailing slashes, keep everything after the
last remaining slash; `""` gives `"."`, an all-slash path gives
`"/"`. -/
def pathBase (s : String) : String :=
  if s.data.isEmpty then "."
  else
    let stripped := (s.data.reverse.dropWhile (fun c => c == '/')).reverse
    let last := (stripped.reverse.takeWhile (fun c => c != '/')).reverse
    if last.isEmpty then "/" else String.mk last

/-- Outcome of running a method-table entry on the inbound call:
handler success with the marshalled response bytes, handler error, or
failure to marshal the handler's result. -/
inductive HandlerOutcome where
  | success (respBytes : Payload)
  | handlerErr (msg : String)
  | marshalErr (msg : String)
deriving DecidableEq, Repr

/-- `PluginStreamClient.handleRPCCall` (src/stream/manager.go lines
326-381): reduce the call's method to `path.Base` (line 329), scan
`service.Methods` for the first exact `MethodName` match (lines
331-332); on a match, the handler's outcome yields an `RpcResponse`
with the original request ID (lines 360-368), an `Error` with code
`"RPC_ERROR"` (lines 337-346), or an `Error` with code
`"MARSHAL_ERROR"` (lines 349-358); with no match, an `Error` with code
`codes.Unimplemented.String()` = `"Unimplemented"` and message
`"unknown method <fullMethod>"` (lines 372-380).  The returned envelope
is the one sent back on the stream. -/
def handleRPCCall (methods : List (String × HandlerOutcome))
    (requestId fullMethod : String) : Envelope :=
  match assocLookup methods (pathBase fullMethod) with
  | some (.success respBytes) => .rpcResponse requestId respBytes
  | some (.handlerErr msg) => .error "RPC_ERROR" msg
  | some (.marshalErr msg) =>
      .error "MARSHAL_ERROR" ("failed to marshal response: " ++ msg)
  | none => .error "Unimplemented" ("unknown method " ++ fullMethod)

theorem decodeBytes_encodeBytes (b r : List Nat) :
    decodeBytes (encodeBytes b ++ r) = some (b, r) := by
  simp [encodeBytes, decodeBytes, List.take_left, List.drop_left]

theorem decodeStr_encodeStr (s : String) (r : List Nat) :
    decodeStr (encodeStr s ++ r) = some (s, r) := by
  have hmap : (s.data.map Char.toNat).map Char.ofNat = s.data := by
    rw [List.map_map]
    have hco : (Char.ofNat ∘ Char.toNat) = id := funext Char.ofNat_toNat
    rw [hco, List.map_id]
  simp [decodeStr, encodeStr, decodeBytes_encodeBytes, hmap]

theorem unmarshal_marshal (e : Envelope) :
    unmarshalEnvelope (marshalEnvelope e) = some e := by
  have hb : ∀ b : List Nat, decodeBytes (encodeBytes b) = some (b, []) := by
    intro b
    have := decodeBytes_encodeBytes b []
    simpa using this
  have hs : ∀ s : String, decodeStr (encodeStr s) = some (s, []) := by
    intro s
    have := decodeStr_encodeStr s []
    simpa using this
  cases e with
  | register name version =>
      simp [marshalEnvelope, unmarshalEnvelope, decodeStr_encodeStr, hs]
  | rpcCall requestId method payload =>
      simp [marshalEnvelope, unmarshalEnvelope, decodeStr_encodeStr, hb]
  | rpcResponse requestId payload =>
      simp [marshalEnvelope, unmarshalEnvelope, decodeStr_encodeStr, hb]
  | error code message =>
      simp [marshalEnvelope, unmarshalEnvelope, decodeStr_encodeStr, hs]

theorem mem_mapInsert_self (table : List String) (name : String) :
    name ∈ mapInsert table name := by
  unfold mapInsert
  split
  · assumption
  · exact List.mem_cons_self name table

theorem assocLookup_assocErase {α : Type} (m : List (String × α)) (k : String) :
    assocLookup (assocErase m k) k = none := by
  induction m with
  | nil => rfl
  | cons hd tl ih =>
      obtain ⟨k1, v1⟩ := hd
      by_cases h : k1 = k
      · simp [assocErase, h, ih]
      · simp [assocErase, assocLookup, h, ih]

/-- C1: An attach attempt through `HandlePluginStream` against a table
that has already reached `maxConnections` returns
`ErrMaxConnectionsReached` with the table unchanged (and no events);
below the bound the attempt never returns the capacity error, the
registration event fires, and the name is in the inserted table. -/
theorem handlePluginStream_capacity (table : List String) (maxConn : Nat)
    (name : String) (connect : ConnectOutcome) :
    (maxConn ≤ table.length →
      handlePluginStream table maxConn name connect
        = (HandleErr.maxConnectionsReached, table, []))
    ∧ (table.length < maxConn →
      (handlePluginStream table maxConn name connect).1
          ≠ HandleErr.maxConnectionsReached
      ∧ HEvent.registered name ∈ (handlePluginStream table maxConn name connect).2.2
      ∧ name ∈ mapInsert table name) := by
  constructor
  · intro h
    simp [handlePluginStream, h]
  · intro h
    have hn : ¬ maxConn ≤ table.length := Nat.not_le.mpr h
    refine ⟨?_, ?_, mem_mapInsert_self table name⟩
    · cases connect <;> simp [handlePluginStream, hn]
    · cases connect <;> simp [handlePluginStream, hn]

/-- Witness for C1: with the table at the bound the capacity error is
returned and the table is untouched; with room, the result is not the
capacity error. -/
theorem handlePluginStream_capacity_witness :
    handlePluginStream ["a"] 1 "b" ConnectOutcome.ok
        = (HandleErr.maxConnectionsReached, ["a"], [])
    ∧ (handlePluginStream [] 1 "b" ConnectOutcome.ok).1
        ≠ HandleErr.maxConnectionsReached :=
  ⟨(handlePluginStream_capacity ["a"] 1 "b" ConnectOutcome.ok).1 (by decide),
   ((handlePluginStream_capacity [] 1 "b" ConnectOutcome.ok).2 (by decide)).1⟩

/-- C2: Refutation of "the table never exceeds the bound under
interleaved lock-delimited steps".  The capacity check and the
insertion are two separate critical sections (src/stream/
plugin_helpers.go lines 175-181 and 192-194), so from bound 1 and an
empty table the interleaving check(a); check(b); insert(a); insert(b)
reaches `admBad`, whose table holds 2 > 1 entries. -/
theorem admission_overAdmission_reachable :
    Relation.ReflTransGen AdmStep admInit admBad
    ∧ admBad.maxConn < admBad.table.length := by
  refine ⟨?_, by decide⟩
  have h1 : AdmStep admInit
      ⟨1, [], [("a", HPhase.inserting), ("b", HPhase.checking)]⟩ :=
    AdmStep.checkPass admInit 0 "a" rfl (by decide)
  have h2 : AdmStep ⟨1, [], [("a", HPhase.inserting), ("b", HPhase.checking)]⟩
      ⟨1, [], [("a", HPhase.inserting), ("b", HPhase.inserting)]⟩ :=
    AdmStep.checkPass _ 1 "b" rfl (by decide)
  have h3 : AdmStep ⟨1, [], [("a", HPhase.inserting), ("b", HPhase.inserting)]⟩
      ⟨1, ["a"], [("a", HPhase.registered), ("b", HPhase.inserting)]⟩ :=
    AdmStep.insertStep _ 0 "a" rfl
  have h4 : AdmStep ⟨1, ["a"], [("a", HPhase.registered), ("b", HPhase.inserting)]⟩
      admBad :=
    AdmStep.insertStep _ 1 "b" rfl
  exact Relation.ReflTransGen.tail
    (Relation.ReflTransGen.tail
      (Relation.ReflTransGen.tail (Relation.ReflTransGen.single h1) h2) h3) h4

/-- C3 counterexample: a response whose request ID has no pending entry
does not let the receive loop continue — `handleResponse` returns an
error and `ListenForMessages` returns it wrapped. -/
theorem listenStep_unknownResponse_cex :
    listenStep [] (Envelope.rpcResponse "x" [])
      = Except.error
          ("failed to handle RPC response: " ++ ("no pending call for request ID: " ++ "x")) := by
  rfl

/-- C3 amended: for every response whose request ID matches no pending
entry, `handleResponse` fails with "no pending call" and the receive
loop returns that error (wrapped) instead of continuing. -/
theorem listenStep_unknownResponse_errors (pending : PendingMap)
    (requestId : String) (payload : Payload)
    (h : assocLookup pending requestId = none) :
    listenStep pending (.rpcResponse requestId payload)
      = Except.error
          ("failed to handle RPC response: "
            ++ ("no pending call for request ID: " ++ requestId)) := by
  simp [listenStep, handleResponse, h]

/-- Witness for C3 amended: a one-entry table under a different key. -/
theorem listenStep_unknownResponse_errors_witness :
    listenStep [("y", (none : Option Payload))] (Envelope.rpcResponse "x" [])
      = Except.error
          ("failed to handle RPC response: "
            ++ ("no pending call for request ID: " ++ "x")) :=
  listenStep_unknownResponse_errors [("y", (none : Option Payload))] "x" []
    (by decide)

/-- C4 counterexample: in the effect trace of `CallRPC`, no
registration of the pending entry occurs before the `Send` of the
`RpcCall` envelope — the claim's "register, then send" order is false
at request ID "42", method "Echo". -/
theorem callRPC_registerBeforeSend_cex :
    occursBefore isRegisterAct isSendAct (callRPCActs "42" "Echo" []) = false := by
  rfl

/-- C4 amended: `CallRPC` marshals, generates the identifier, sends the
`RpcCall` envelope, and only then (inside `waitForResponse`) registers
the `PendingCall` entry and waits — the send strictly precedes the
registration, and no registration precedes the send. -/
theorem callRPC_sendBeforeRegister (requestId method : String) (payload : Payload) :
    occursBefore isSendAct isRegisterAct (callRPCActs requestId method payload) = true
    ∧ occursBefore isRegisterAct isSendAct (callRPCActs requestId method payload)
        = false := by
  exact ⟨rfl, rfl⟩

/-- C5: `generateRequestID` is only the nanosecond clock reading
printed in decimal, so two calls whose clock reads coincide (both 42
here) get the same identifier, and the second registration under that
identifier overwrites the first — one entry, not two, remains in the
pending-call table. -/
theorem generateRequestID_collision :
    generateRequestID 42 = generateRequestID 42
    ∧ (assocInsert (assocInsert ([] : PendingMap) (generateRequestID 42) none)
        (generateRequestID 42) none).length = 1 := by
  exact ⟨rfl, by decide⟩

/-- C6: when the governing context is cancelled before a response is
delivered, `waitForResponse` returns the cancellation error (no
payload) and — via its deferred delete — the pending entry for the
request ID is gone from the table by the time it returns. -/
theorem waitForResponse_cancelled (pending : PendingMap)
    (requestId errMsg : String) :
    (waitForResponse pending requestId (.ctxDone errMsg)).1
      = Except.error (CallErr.ctxErr errMsg)
    ∧ assocLookup (waitForResponse pending requestId (.ctxDone errMsg)).2
        requestId = none := by
  refine ⟨rfl, ?_⟩
  show assocLookup (assocErase (assocInsert pending requestId none) requestId)
      requestId = none
  exact assocLookup_assocErase _ requestId

/-- C7: the dispatcher reduces the call's method to its final path
segment and matches it exactly against the method table; when no entry
matches, it sends an `Error` envelope with code "Unimplemented" whose
message names the unmatched method, and never an `RpcResponse`. -/
theorem handleRPCCall_unknownMethod (methods : List (String × HandlerOutcome))
    (requestId fullMethod : String)
    (h : assocLookup methods (pathBase fullMethod) = none) :
    handleRPCCall methods requestId fullMethod
      = Envelope.error "Unimplemented" ("unknown method " ++ fullMethod)
    ∧ ∀ (rid : String) (p : Payload),
        handleRPCCall methods requestId fullMethod ≠ Envelope.rpcResponse rid p := by
  have he : handleRPCCall methods requestId fullMethod
      = Envelope.error "Unimplemented" ("unknown method " ++ fullMethod) := by
    simp [handleRPCCall, h]
  refine ⟨he, ?_⟩
  intro rid p hc
  rw [he] at hc
  exact Envelope.noConfusion hc

/-- Witness for C7: the table knows only "Echo"; the fully qualified
name "pkg.Service/Missing" reduces to "Missing", matches nothing, and
yields the unimplemented error envelope. -/
theorem handleRPCCall_unknownMethod_witness :
    handleRPCCall [("Echo", HandlerOutcome.success [])] "7" "pkg.Service/Missing"
      = Envelope.error "Unimplemented" ("unknown method " ++ "pkg.Service/Missing") :=
  (handleRPCCall_unknownMethod [("Echo", HandlerOutcome.success [])] "7"
    "pkg.Service/Missing" (by decide)).1

/-- C9: for every carrier whose wrap/unwrap pair satisfies
`unwrap (wrap b) = b`, sending an envelope through the adapter's `Send`
and receiving it back through `Recv` yields the original envelope in
every field. -/
theorem adapter_roundtrip {C : Type} (wrapMessage : List Nat → C)
    (unwrapMessage : C → List Nat)
    (h : ∀ b : List Nat, unwrapMessage (wrapMessage b) = b) (msg : Envelope) :
    adapterRecv unwrapMessage (adapterSend wrapMessage msg) = some msg := by
  unfold adapterRecv adapterSend
  rw [h]
  exact unmarshal_marshal msg

/-- Witness for C9: the identity carrier and a concrete registration
envelope. -/
theorem adapter_roundtrip_witness :
    adapterRecv (fun b => b)
        (adapterSend (fun b => b) (Envelope.register "echo" "v1"))
      = some (Envelope.register "echo" "v1") :=
  adapter_roundtrip (fun b => b) (fun b => b) (fun _ => rfl)
    (Envelope.register "echo" "v1")

/-- C8: when the attach callback fails, `HandlePluginStream` returns
the callback's error, the just-inserted entry is gone from the table,
the detach callback never fires, and the run never blocks on the
lifetime signal (no `ctx.Done()` wait event) — yet the unregistration
did happen. -/
theorem handlePluginStream_connectFailure (table : List String) (maxConn : Nat)
    (name msg : String) (hroom : table.length < maxConn) :
    (handlePluginStream table maxConn name (.fail msg)).1
        = HandleErr.connectFailed msg
    ∧ name ∉ (handlePluginStream table maxConn name (.fail msg)).2.1
    ∧ HEvent.onDisconnect name ∉ (handlePluginStream table maxConn name (.fail msg)).2.2
    ∧ HEvent.waitedCtxDone ∉ (handlePluginStream table maxConn name (.fail msg)).2.2
    ∧ HEvent.unregistered name ∈ (handlePluginStream table maxConn name (.fail msg)).2.2 := by
  have hn : ¬ maxConn ≤ table.length := Nat.not_le.mpr hroom
  refine ⟨?_, ?_, ?_, ?_, ?_⟩ <;>
    simp [handlePluginStream, hn, mapRemove, List.mem_filter]

/-- Witness for C8: empty table, bound 1, plugin "p", callback error
"boom". -/
theorem handlePluginStream_connectFailure_witness :
    (handlePluginStream [] 1 "p" (ConnectOutcome.fail "boom")).1
        = HandleErr.connectFailed "boom"
    ∧ HEvent.onDisconnect "p"
        ∉ (handlePluginStream [] 1 "p" (ConnectOutcome.fail "boom")).2.2 := by
  have h := handlePluginStream_connectFailure [] 1 "p" "boom" (by decide)
  exact ⟨h.1, h.2.2.1⟩

/-- C10: an in-band `Error` envelope is silently discarded by the host:
`handleError` leaves the pending-call table exactly as it was (no entry
added, removed, or resolved, so no waiter is notified) and the receive
loop continues (`.ok`) with that same table. -/
theorem listenStep_errorEnvelope_noop (pending : PendingMap)
    (code message : String) :
    listenStep pending (.error code message) = Except.ok pending
    ∧ handleError pending code message = pending := by
  exact ⟨rfl, rfl⟩

end OPF
